import Mathlib

/-!
Verification development for the Guide Booker invoice PDF generator
(src/app/models.py, src/app/pdf_generator.py).

The Python code is shallowly embedded: floats are idealised as rationals
(ℚ), the reportlab flowable "story" built by `generate_invoice_pdf` is a
`List Flowable`, and Python string formatting is implemented explicitly.
-/

namespace GuideBooker

/-! ### Decimal digit and numeral rendering

Embedding of the decimal formatting that Python performs inside
f-strings.  `natRepr` renders a natural number in base 10, as `str`
does for non-negative ints. -/

def digitChar (n : Nat) : Char := Char.ofNat (48 + n % 10)

def natDigitsRevAux : Nat → Nat → List Char
  | 0, _ => []
  | fuel + 1, n =>
    if n = 0 then [] else digitChar (n % 10) :: natDigitsRevAux fuel (n / 10)

def natDigitsRev (n : Nat) : List Char := natDigitsRevAux n n

def natRepr (n : Nat) : String :=
  if n = 0 then "0" else String.mk (natDigitsRev n).reverse

def intRepr (i : Int) : String :=
  if i < 0 then "-" ++ natRepr i.natAbs else natRepr i.natAbs

/-! ### Thousands grouping

Python's `,` format specifier inserts a comma every three digits,
counting from the least-significant digit.  `groupRev` works on the
digit list reversed (least-significant first); `insertCommas` is the
grouping on the ordinary most-significant-first digit list. -/

def groupRev : List Char → List Char
  | a :: b :: c :: d :: l => a :: b :: c :: ',' :: groupRev (d :: l)
  | l => l

def insertCommas (l : List Char) : List Char :=
  (groupRev l.reverse).reverse

/-! ### Rounding to two decimals

Python's fixed-point float format rounds the value to the nearest
multiple of 1/100, ties to even (IEEE round-half-even on the exact
value, which is the idealisation of CPython float formatting over ℚ).
`round2 q` is the resulting number of cents, as an integer. -/

def round2 (q : ℚ) : Int :=
  let x : ℚ := q * 100
  let f : Int := ⌊x⌋
  let r : ℚ := x - (f : ℚ)
  if r < 1/2 then f
  else if 1/2 < r then f + 1
  else if f % 2 = 0 then f else f + 1

def twoDigitsStr (n : Nat) : String :=
  String.mk [digitChar (n / 10), digitChar n]

/-- Embedding of Python `format(value, ",.2f")`: optional sign, the
integer part with thousands separators, a dot, and exactly two decimal
digits. -/
def pyFormatComma2 (q : ℚ) : String :=
  let n : Int := round2 q
  let m : Nat := n.natAbs
  let sign : String := if n < 0 then "-" else ""
  sign ++ String.mk (insertCommas (natRepr (m / 100)).data)
       ++ "." ++ twoDigitsStr (m % 100)

/-- Embedding of `_currency` (src/app/pdf_generator.py line 28):
`return f"{symbol}{value:,.2f}"`. -/
def _currency (value : ℚ) (symbol : String) : String :=
  symbol ++ pyFormatComma2 value

/-! ### Python `str(float)`

`floatStr` models CPython `str` on a float whose shortest decimal
representation is the decimal the caller supplied (true of every
validated payload value): sign, integer part, a dot, then the fractional
digits, or `0` when the value is integral.  Only used for the tax-rate
label, which no claim inspects numerically. -/

def fracDigitsAux : Nat → ℚ → List Char
  | 0, _ => []
  | fuel + 1, q =>
    if q = 0 then []
    else
      let d : Int := ⌊q * 10⌋
      digitChar d.toNat :: fracDigitsAux fuel (q * 10 - (d : ℚ))

def floatStr (q : ℚ) : String :=
  let sign : String := if q < 0 then "-" else ""
  let a : ℚ := |q|
  let ip : Nat := (⌊a⌋).toNat
  let ds : List Char := fracDigitsAux 17 (a - (ip : ℚ))
  sign ++ natRepr ip ++ "." ++ (if ds.isEmpty then "0" else String.mk ds)

/-! ### Dates

`booking_date`/`due_date` are calendar dates rendered with
`strftime("%B %d, %Y")` (full month name, zero-padded day, year). -/

structure PyDate where
  year : Nat
  month : Nat
  day : Nat
deriving DecidableEq

def monthName (m : Nat) : String :=
  ["January", "February", "March", "April", "May", "June", "July",
   "August", "September", "October", "November", "December"].getD (m - 1) ""

def pad2 (n : Nat) : String :=
  if n < 10 then "0" ++ natRepr n else natRepr n

def strftimeBdY (d : PyDate) : String :=
  monthName d.month ++ " " ++ pad2 d.day ++ ", " ++ natRepr d.year

/-! ### Input data model (src/app/models.py)

`BookingItem` and `BookingInvoiceRequest` mirror the pydantic models;
the `Field` range constraints become the validity predicates below, and
the `Field` defaults become `BookingInvoiceRequest.mkMinimal`. -/

structure BookingItem where
  description : String
  quantity : Nat
  unit_price : ℚ
deriving DecidableEq

structure BookingInvoiceRequest where
  invoice_number : String
  customer_name : String
  customer_email : String
  customer_address : String
  booking_date : PyDate
  due_date : PyDate
  guide_name : String
  items : List BookingItem
  tax_rate : ℚ
  discount : ℚ
  notes : Option String
  currency : String
deriving DecidableEq

/-- Constraints on a line item from models.py: `quantity ≥ 1`,
`unit_price ≥ 0`. -/
def ValidItem (it : BookingItem) : Prop :=
  1 ≤ it.quantity ∧ 0 ≤ it.unit_price

instance (it : BookingItem) : Decidable (ValidItem it) := by
  unfold ValidItem; infer_instance

/-- Constraints on a request from models.py: `items` non-empty
(`min_length=1`), every item valid, `0 ≤ tax_rate ≤ 100`,
`discount ≥ 0`. -/
def ValidRecord (r : BookingInvoiceRequest) : Prop :=
  r.items ≠ [] ∧ (∀ it ∈ r.items, ValidItem it) ∧
    0 ≤ r.tax_rate ∧ r.tax_rate ≤ 100 ∧ 0 ≤ r.discount

instance (r : BookingInvoiceRequest) : Decidable (ValidRecord r) := by
  unfold ValidRecord; infer_instance

/-- A request built by supplying only the required fields; the optional
fields take the `Field(default=...)` values from models.py lines 30-35:
`tax_rate=0.0`, `discount=0.0`, `notes=None`, `currency="USD"`. -/
def BookingInvoiceRequest.mkMinimal
    (invoice_number customer_name customer_email customer_address : String)
    (booking_date due_date : PyDate) (guide_name : String)
    (items : List BookingItem) : BookingInvoiceRequest :=
  { invoice_number := invoice_number
    customer_name := customer_name
    customer_email := customer_email
    customer_address := customer_address
    booking_date := booking_date
    due_date := due_date
    guide_name := guide_name
    items := items
    tax_rate := 0
    discount := 0
    notes := none
    currency := "USD" }

/-! ### Flowable model

The reportlab "story" is a list of flowables: tables (rows of cells,
relative column widths, a list of `TableStyle` commands), spacers and
paragraphs.  A paragraph carries its markup text and the name of the
`ParagraphStyle` it is built with (the keys of `_build_styles`, or the
inline style names `InvNum` / `TotalValue`); the claims only depend on
those names.  Colours are kept as their hex strings, numeric style
arguments as decimal strings. -/

structure StyleCmd where
  cmd : String
  first : Int × Int
  last : Int × Int
  args : List String
deriving DecidableEq

inductive Cell where
  | str (s : String)
  | par (text : String) (style : String)
deriving DecidableEq

inductive Flowable where
  | table (rows : List (List Cell)) (colWidths : List String)
      (style : List StyleCmd)
  | spacer (w h : ℚ)
  | par (text : String) (style : String)
deriving DecidableEq

/-- reportlab's `mm` unit: 72/25.4 points, exactly 360/127. -/
def mm : ℚ := 360 / 127

/-! ### The story built by `generate_invoice_pdf`
(src/app/pdf_generator.py lines 93-276), region by region. -/

/-- Line 107: `sym = "$" if data.currency == "USD" else data.currency + " "`. -/
def symOf (data : BookingInvoiceRequest) : String :=
  if data.currency = "USD" then "$" else data.currency ++ " "

/-- Header band (lines 110-136). -/
def headerTable (data : BookingInvoiceRequest) : Flowable :=
  .table
    [[ .par "<b>Guide Booker</b>" "title",
       .par ("<b>INVOICE</b><br/>" ++ data.invoice_number) "InvNum" ]]
    ["60%", "40%"]
    [ ⟨"VALIGN", (0, 0), (-1, -1), ["TOP"]⟩,
      ⟨"LINEBELOW", (0, 0), (-1, 0), ["1.5", "#e94560"]⟩,
      ⟨"BOTTOMPADDING", (0, 0), (-1, 0), ["8"]⟩ ]

/-- Info band (lines 140-160). -/
def infoTable (data : BookingInvoiceRequest) : Flowable :=
  .table
    [[ .par ("<b>Bill To:</b><br/>" ++ data.customer_name ++ "<br/>"
             ++ data.customer_email ++ "<br/>" ++ data.customer_address)
         "normal",
       .par ("<b>Booking Date:</b> " ++ strftimeBdY data.booking_date
             ++ "<br/><b>Due Date:</b> " ++ strftimeBdY data.due_date
             ++ "<br/><b>Guide Name:</b> " ++ data.guide_name)
         "normal" ]]
    ["55%", "45%"]
    [ ⟨"VALIGN", (0, 0), (-1, -1), ["TOP"]⟩ ]

/-- Item-table header row (lines 166-174). -/
def itemsHeaderRow : List Cell :=
  [ .par "<b>#</b>" "bold",
    .par "<b>Description</b>" "bold",
    .par "<b>Qty</b>" "bold",
    .par "<b>Unit Price</b>" "bold",
    .par "<b>Amount</b>" "bold" ]

/-- One data row of the item table (lines 175-185): index, description,
quantity, unit price, amount = quantity * unit_price. -/
def itemRow (idx : Nat) (it : BookingItem) (sym : String) : List Cell :=
  [ .par (natRepr idx) "normal",
    .par it.description "normal",
    .par (natRepr it.quantity) "normal",
    .par (_currency it.unit_price sym) "normal",
    .par (_currency ((it.quantity : ℚ) * it.unit_price) sym) "normal" ]

/-- The data rows produced by `enumerate(data.items, start=1)`. -/
def itemRows (sym : String) : Nat → List BookingItem → List (List Cell)
  | _, [] => []
  | idx, it :: rest => itemRow idx it sym :: itemRows sym (idx + 1) rest

/-- Base `tbl_style` commands (lines 188-199). -/
def baseTblStyle : List StyleCmd :=
  [ ⟨"BACKGROUND", (0, 0), (-1, 0), ["#9f9f9f"]⟩,
    ⟨"TEXTCOLOR", (0, 0), (-1, 0), ["white"]⟩,
    ⟨"FONTNAME", (0, 0), (-1, 0), ["Helvetica-Bold"]⟩,
    ⟨"GRID", (0, 0), (-1, -1), ["0.5", "#e0e0e0"]⟩,
    ⟨"VALIGN", (0, 0), (-1, -1), ["MIDDLE"]⟩,
    ⟨"TOPPADDING", (0, 0), (-1, -1), ["6"]⟩,
    ⟨"BOTTOMPADDING", (0, 0), (-1, -1), ["6"]⟩,
    ⟨"LEFTPADDING", (0, 0), (-1, -1), ["6"]⟩ ]

/-- Alternate row shading (lines 200-203):
`for i in range(1, len(tbl_data)): if i % 2 == 0: BACKGROUND row i`.
`tbl_data` has `1 + n` rows for `n` items, so `range(1, len(tbl_data))`
is `List.range' 1 n`. -/
def altRowCmds (n : Nat) : List StyleCmd :=
  (List.range' 1 n).filterMap fun (i : Nat) =>
    if i % 2 = 0 then
      some ⟨"BACKGROUND", (0, (i : Int)), (-1, (i : Int)), ["#f4f6fb"]⟩
    else none

def itemsTblStyle (n : Nat) : List StyleCmd :=
  baseTblStyle ++ altRowCmds n

/-- The item table (lines 164-204). -/
def itemsTable (data : BookingInvoiceRequest) : Flowable :=
  .table (itemsHeaderRow :: itemRows (symOf data) 1 data.items)
    ["8%", "47%", "12%", "15%", "18%"]
    (itemsTblStyle data.items.length)

/-- Line 209: `subtotal = sum(i.quantity * i.unit_price for i in data.items)`. -/
def subtotal (data : BookingInvoiceRequest) : ℚ :=
  (data.items.map fun i => (i.quantity : ℚ) * i.unit_price).sum

/-- Line 210: `tax_amount = subtotal * data.tax_rate / 100`. -/
def tax_amount (data : BookingInvoiceRequest) : ℚ :=
  subtotal data * data.tax_rate / 100

/-- Line 211: `total = subtotal + tax_amount - data.discount`. -/
def total (data : BookingInvoiceRequest) : ℚ :=
  subtotal data + tax_amount data - data.discount

/-- `totals_data` (lines 213-244).  The Discount value is prefixed with
the literal minus sign `−` (U+2212) from line 228. -/
def totalsRows (data : BookingInvoiceRequest) : List (List Cell) :=
  [ [ .str "",
      .par "<b>Subtotal</b>" "bold",
      .par (_currency (subtotal data) (symOf data)) "normal" ],
    [ .str "",
      .par ("<b>Tax (" ++ floatStr data.tax_rate ++ "%)</b>") "bold",
      .par (_currency (tax_amount data) (symOf data)) "normal" ],
    [ .str "",
      .par "<b>Discount</b>" "bold",
      .par ("−" ++ _currency data.discount (symOf data)) "normal" ],
    [ .str "",
      .par "<b>TOTAL</b>" "bold",
      .par ("<b>" ++ _currency (total data) (symOf data) ++ "</b>")
        "TotalValue" ] ]

def totalsStyle : List StyleCmd :=
  [ ⟨"ALIGN", (1, 0), (-1, -1), ["RIGHT"]⟩,
    ⟨"LINEABOVE", (1, -1), (-1, -1), ["1.5", "#e94560"]⟩,
    ⟨"TOPPADDING", (0, 0), (-1, -1), ["4"]⟩,
    ⟨"BOTTOMPADDING", (0, 0), (-1, -1), ["4"]⟩ ]

def totalsTable (data : BookingInvoiceRequest) : Flowable :=
  .table (totalsRows data) ["52%", "28%", "20%"] totalsStyle

/-- Notes region (lines 258-261).  The source guard is `if data.notes:`
- Python truthiness, false both for `None` and for the empty string. -/
def notesFlow (data : BookingInvoiceRequest) : List Flowable :=
  match data.notes with
  | none => []
  | some s =>
    if s = "" then []
    else [ .spacer 1 (4 * mm),
           .par ("<i>Notes: " ++ s ++ "</i>") "notes" ]

/-- The full story appended by `generate_invoice_pdf` (lines 105-276),
in source order. -/
def generate_invoice_story (data : BookingInvoiceRequest) : List Flowable :=
  [ headerTable data, .spacer 1 (6 * mm),
    infoTable data, .spacer 1 (8 * mm),
    itemsTable data, .spacer 1 (6 * mm),
    totalsTable data ]
  ++ notesFlow data
  ++ [ .spacer 1 (12 * mm),
       .par "Guide Booker · Professional Tour Guide Services · guidebooker.com"
         "footer",
       .par "This is a computer-generated invoice. No signature required."
         "footer" ]

/-! ### Byte output

The serialisation of the story into PDF bytes is performed by the
external reportlab library (`doc.build(story)`; `buf.getvalue()`),
which is not part of this repository. -/

def serializeCell : Cell → String
  | .str s => s
  | .par t st => t ++ st

def serializeFlowable : Flowable → String
  | .table rows _ _ => String.join (rows.map fun row =>
      String.join (row.map serializeCell))
  | .spacer _ _ => " "
  | .par t st => t ++ st

/-- Modelled from the spec: the page-layout engine invoked by
`doc.build(story)` is the external reportlab library, absent from this
repository.  Per the spec, the output's first bytes are the fixed PDF
magic signature `%PDF-` and the document body serialises the flow
content; no non-deterministic metadata (timestamps) is embedded. -/
def docBuild (story : List Flowable) : String :=
  "%PDF-1.4\n" ++ String.join (story.map serializeFlowable)

/-- Embedding of `generate_invoice_pdf` at the byte level: build the
story, then let the document writer serialise it. -/
def generate_invoice_pdf (data : BookingInvoiceRequest) : String :=
  docBuild (generate_invoice_story data)

/-- A flowable is the notes region exactly when it is a paragraph built
with the `notes` style. -/
def isNotesPar : Flowable → Bool
  | .par _ st => st == "notes"
  | _ => false

def hasNotesRegion (story : List Flowable) : Prop :=
  ∃ f ∈ story, isNotesPar f = true

instance (story : List Flowable) : Decidable (hasNotesRegion story) := by
  unfold hasNotesRegion; infer_instance

/-! ### Facts about the number formatting -/

lemma isDigit_digitChar (n : Nat) : (digitChar n).isDigit = true := by
  unfold digitChar
  have h : n % 10 < 10 := Nat.mod_lt _ (by decide)
  generalize n % 10 = k at h ⊢
  interval_cases k <;> decide

lemma mem_natDigitsRevAux {fuel n : Nat} {c : Char}
    (hc : c ∈ natDigitsRevAux fuel n) : c.isDigit = true := by
  induction fuel generalizing n with
  | zero => simp [natDigitsRevAux] at hc
  | succ fuel ih =>
    unfold natDigitsRevAux at hc
    by_cases h : n = 0
    · simp [h] at hc
    · simp [h] at hc
      rcases hc with rfl | hc
      · exact isDigit_digitChar _
      · exact ih hc

lemma natRepr_digits {n : Nat} {c : Char} (hc : c ∈ (natRepr n).data) :
    c.isDigit = true := by
  unfold natRepr at hc
  by_cases h : n = 0
  · simp [h] at hc
    subst hc
    decide
  · simp [h, natDigitsRev] at hc
    exact mem_natDigitsRevAux hc

lemma natRepr_ne_nil (n : Nat) : (natRepr n).data ≠ [] := by
  unfold natRepr
  by_cases h : n = 0
  · simp [h]
  · obtain ⟨m, rfl⟩ := Nat.exists_eq_succ_of_ne_zero h
    simp [natDigitsRev, natDigitsRevAux]

lemma mem_groupRev : ∀ (l : List Char) (c : Char), c ∈ groupRev l → c ∈ l ∨ c = ','
  | [], c, hc => Or.inl hc
  | [a], c, hc => Or.inl hc
  | [a, b], c, hc => Or.inl hc
  | [a, b, c'], c, hc => Or.inl hc
  | a :: b :: c' :: d :: l, c, hc => by
    have hc : c ∈ a :: b :: c' :: ',' :: groupRev (d :: l) := hc
    simp at hc
    rcases hc with rfl | rfl | rfl | rfl | hc
    · exact Or.inl (by simp)
    · exact Or.inl (by simp)
    · exact Or.inl (by simp)
    · exact Or.inr rfl
    · rcases mem_groupRev (d :: l) c hc with hm | hm
      · refine Or.inl ?_
        simp at hm
        rcases hm with rfl | hm
        · simp
        · simp [hm]
      · exact Or.inr hm

/-- Checker for a reversed integer part with thousands separators:
groups of exactly three digits separated by commas, with the final
(most-significant) group one to three digits long. -/
def revGroupedOk : List Char → Bool
  | [] => false
  | [a] => a.isDigit
  | [a, b] => a.isDigit && b.isDigit
  | [a, b, c] => a.isDigit && b.isDigit && c.isDigit
  | a :: b :: c :: ',' :: l => a.isDigit && b.isDigit && c.isDigit && revGroupedOk l
  | _ => false

lemma revGroupedOk_groupRev :
    ∀ l : List Char, l ≠ [] → (∀ c ∈ l, c.isDigit = true) →
      revGroupedOk (groupRev l) = true
  | [], h, _ => absurd rfl h
  | [a], _, hd => by
    have : revGroupedOk (groupRev [a]) = a.isDigit := rfl
    rw [this]
    exact hd a (by simp)
  | [a, b], _, hd => by
    have : revGroupedOk (groupRev [a, b]) = (a.isDigit && b.isDigit) := rfl
    rw [this, hd a (by simp), hd b (by simp)]
    rfl
  | [a, b, c], _, hd => by
    have : revGroupedOk (groupRev [a, b, c])
        = (a.isDigit && b.isDigit && c.isDigit) := rfl
    rw [this, hd a (by simp), hd b (by simp), hd c (by simp)]
    rfl
  | a :: b :: c :: d :: l, _, hd => by
    have hrw : revGroupedOk (groupRev (a :: b :: c :: d :: l))
        = (a.isDigit && b.isDigit && c.isDigit
            && revGroupedOk (groupRev (d :: l))) := rfl
    rw [hrw, hd a (by simp), hd b (by simp), hd c (by simp),
      revGroupedOk_groupRev (d :: l) (by simp)
        (fun x hx => hd x (by
          simp at hx
          rcases hx with rfl | hx
          · simp
          · simp [hx]))]
    rfl

lemma round2_eq_of (q : ℚ) (n : Int) (h : q * 100 = (n : ℚ)) : round2 q = n := by
  unfold round2
  rw [h]
  simp

lemma pyFormatComma2_eq_of (q : ℚ) (n : Int) (h : q * 100 = (n : ℚ)) :
    pyFormatComma2 q =
      (if n < 0 then "-" else "")
        ++ String.mk (insertCommas (natRepr (n.natAbs / 100)).data)
        ++ "." ++ twoDigitsStr (n.natAbs % 100) := by
  unfold pyFormatComma2
  rw [round2_eq_of q n h]

/-! ### Facts about the story -/

lemma hasNotes_iff (r : BookingInvoiceRequest) :
    hasNotesRegion (generate_invoice_story r) ↔ ∃ s, r.notes = some s ∧ s ≠ "" := by
  unfold hasNotesRegion generate_invoice_story
  rcases hn : r.notes with _ | s
  · simp [notesFlow, hn, isNotesPar, headerTable, infoTable, itemsTable, totalsTable]
  · by_cases hs : s = ""
    · subst hs
      simp [notesFlow, hn, isNotesPar, headerTable, infoTable, itemsTable, totalsTable]
    · simp [notesFlow, hn, hs, isNotesPar, headerTable, infoTable, itemsTable, totalsTable]

lemma itemRows_length (sym : String) :
    ∀ (l : List BookingItem) (k : Nat), (itemRows sym k l).length = l.length
  | [], _ => rfl
  | _ :: rest, k => by
    simp [itemRows, itemRows_length sym rest (k + 1)]

lemma itemRows_getElem (sym : String) :
    ∀ (l : List BookingItem) (k j : Nat),
      (itemRows sym k l)[j]? = l[j]?.map fun it => itemRow (k + j) it sym
  | [], _, j => by simp [itemRows]
  | it :: rest, k, 0 => by simp [itemRows]
  | it :: rest, k, j + 1 => by
    have ih := itemRows_getElem sym rest (k + 1) j
    have e : k + 1 + j = k + (j + 1) := by omega
    rw [e] at ih
    simpa [itemRows] using ih

/-! ### Concrete records used as witnesses and counterexamples -/

/-- The sample payload from src/tests/test_main.py. -/
def c1Sample : BookingInvoiceRequest :=
  { invoice_number := "INV-2026-001", customer_name := "Jane Doe",
    customer_email := "jane@example.com",
    customer_address := "123 Main St, Bangkok 10110",
    booking_date := ⟨2026, 2, 17⟩, due_date := ⟨2026, 3, 17⟩,
    guide_name := "Somchai Jaidee",
    items := [⟨"City Walking Tour - Full Day", 2, 75⟩,
              ⟨"Temple Guide - Half Day", 1, 45⟩],
    tax_rate := 7, discount := 10,
    notes := some "Thank you for choosing Guide Booker!", currency := "USD" }

/-- A valid record whose total is negative: one free item, discount 5. -/
def negTotalRec : BookingInvoiceRequest :=
  { invoice_number := "INV-NEG", customer_name := "N", customer_email := "n@x.y",
    customer_address := "Z", booking_date := ⟨2026, 1, 1⟩, due_date := ⟨2026, 2, 1⟩,
    guide_name := "G", items := [⟨"Freebie", 1, 0⟩], tax_rate := 0, discount := 5,
    notes := none, currency := "USD" }

/-- Legal boundary record: a single item, zero tax rate, zero discount. -/
def c3Boundary : BookingInvoiceRequest :=
  { invoice_number := "INV-B", customer_name := "B", customer_email := "b@x.y",
    customer_address := "Z", booking_date := ⟨2026, 1, 1⟩, due_date := ⟨2026, 2, 1⟩,
    guide_name := "G", items := [⟨"Tour", 1, 100⟩], tax_rate := 0, discount := 0,
    notes := none, currency := "USD" }

/-- A record whose notes field is present but the empty string. -/
def c4Empty : BookingInvoiceRequest :=
  { invoice_number := "INV-E", customer_name := "E", customer_email := "e@x.y",
    customer_address := "Z", booking_date := ⟨2026, 1, 1⟩, due_date := ⟨2026, 2, 1⟩,
    guide_name := "G", items := [⟨"Tour", 1, 100⟩], tax_rate := 0, discount := 0,
    notes := some "", currency := "USD" }

/-- A record with non-empty notes. -/
def c4Filled : BookingInvoiceRequest :=
  { invoice_number := "INV-F", customer_name := "F", customer_email := "f@x.y",
    customer_address := "Z", booking_date := ⟨2026, 1, 1⟩, due_date := ⟨2026, 2, 1⟩,
    guide_name := "G", items := [⟨"Tour", 1, 100⟩], tax_rate := 0, discount := 0,
    notes := some "hi", currency := "USD" }

/-- A one-item record for the item-table witness. -/
def c5Rec : BookingInvoiceRequest :=
  { invoice_number := "INV-5", customer_name := "C5", customer_email := "c@x.y",
    customer_address := "Z", booking_date := ⟨2026, 1, 1⟩, due_date := ⟨2026, 2, 1⟩,
    guide_name := "G", items := [⟨"Tour", 1, 100⟩], tax_rate := 0, discount := 0,
    notes := none, currency := "USD" }

/-- A two-item record for the shading witness. -/
def c6Rec : BookingInvoiceRequest :=
  { invoice_number := "INV-6", customer_name := "C6", customer_email := "c@x.y",
    customer_address := "Z", booking_date := ⟨2026, 1, 1⟩, due_date := ⟨2026, 2, 1⟩,
    guide_name := "G", items := [⟨"A", 1, 10⟩, ⟨"B", 2, 20⟩], tax_rate := 0,
    discount := 0, notes := none, currency := "USD" }

/-- A USD record with zero discount for the minus-sign witness. -/
def c7Rec : BookingInvoiceRequest :=
  { invoice_number := "INV-7", customer_name := "C7", customer_email := "c@x.y",
    customer_address := "Z", booking_date := ⟨2026, 1, 1⟩, due_date := ⟨2026, 2, 1⟩,
    guide_name := "G", items := [⟨"Tour", 1, 100⟩], tax_rate := 0, discount := 0,
    notes := none, currency := "USD" }

/-- A record for the determinism witness. -/
def c8Rec : BookingInvoiceRequest :=
  { invoice_number := "INV-8", customer_name := "C8", customer_email := "c@x.y",
    customer_address := "Z", booking_date := ⟨2026, 1, 1⟩, due_date := ⟨2026, 2, 1⟩,
    guide_name := "G", items := [⟨"Tour", 2, 50⟩], tax_rate := 5, discount := 1,
    notes := some "n", currency := "THB" }

/-- Another record with empty-string notes, for the truthiness witness. -/
def c9Rec : BookingInvoiceRequest :=
  { invoice_number := "INV-9", customer_name := "C9", customer_email := "c@x.y",
    customer_address := "Z", booking_date := ⟨2026, 1, 1⟩, due_date := ⟨2026, 2, 1⟩,
    guide_name := "G", items := [⟨"Tour", 1, 100⟩], tax_rate := 0, discount := 0,
    notes := some "", currency := "USD" }


/-! ### Claim theorems -/

/-- C1: for every valid record (items non-empty, quantities >= 1, unit
prices >= 0, tax rate in [0,100], discount >= 0) the totals used by the
renderer satisfy `subtotal = sum of quantity * unitPrice`,
`taxAmount = subtotal * taxRate / 100` and
`total = subtotal + taxAmount - discount` exactly; with zero tax rate
and zero discount the total equals the subtotal; the displayed TOTAL
cell carries exactly this value; and the total can be negative (no
clamping). -/
theorem totals_arithmetic (r : BookingInvoiceRequest) (h : ValidRecord r) :
    subtotal r = (r.items.map fun i => (i.quantity : ℚ) * i.unit_price).sum
    ∧ tax_amount r = subtotal r * r.tax_rate / 100
    ∧ total r = subtotal r + tax_amount r - r.discount
    ∧ (r.tax_rate = 0 → r.discount = 0 → total r = subtotal r)
    ∧ totalsTable r ∈ generate_invoice_story r
    ∧ (totalsRows r)[3]? = some [Cell.str "", Cell.par "<b>TOTAL</b>" "bold",
        Cell.par ("<b>" ++ _currency (total r) (symOf r) ++ "</b>") "TotalValue"]
    ∧ ∃ rneg : BookingInvoiceRequest, ValidRecord rneg ∧ total rneg < 0 := by
  refine ⟨rfl, rfl, rfl, ?_, by simp [generate_invoice_story], rfl,
    negTotalRec, by decide, ?_⟩
  · intro h0 h1
    unfold total tax_amount
    rw [h0, h1]
    ring
  · unfold total tax_amount subtotal negTotalRec
    norm_num

/-- C1 witness: the test fixture record is valid and its totals obey the
formula. -/
theorem totals_arithmetic_witness :
    ValidRecord c1Sample
    ∧ total c1Sample = subtotal c1Sample + tax_amount c1Sample - c1Sample.discount :=
  ⟨by decide, (totals_arithmetic c1Sample (by decide)).2.2.1⟩

/-- C2: every amount is rendered as the symbol prefix followed by the
value with thousands separators and exactly two decimal places, where
the prefix is `$` for currency `USD` and `currency ++ " "` otherwise. -/
theorem currency_formatting (v : ℚ) (r : BookingInvoiceRequest) :
    _currency v (symOf r)
      = (if r.currency = "USD" then "$" else r.currency ++ " ") ++ pyFormatComma2 v
    ∧ ∃ sign ip f₁ f₂,
        (pyFormatComma2 v).data = sign ++ ip ++ ['.', f₁, f₂]
        ∧ (sign = [] ∨ sign = ['-'])
        ∧ revGroupedOk ip.reverse = true
        ∧ f₁.isDigit = true ∧ f₂.isDigit = true
        ∧ '.' ∉ ip := by
  constructor
  · rfl
  · refine ⟨(if round2 v < 0 then "-" else ("" : String)).data,
      insertCommas (natRepr ((round2 v).natAbs / 100)).data,
      digitChar ((round2 v).natAbs % 100 / 10), digitChar ((round2 v).natAbs % 100),
      ?_, ?_, ?_, isDigit_digitChar _, isDigit_digitChar _, ?_⟩
    · unfold pyFormatComma2 twoDigitsStr
      simp [String.data_append]
    · by_cases hn : round2 v < 0
      · right; simp [hn]
      · left; simp [hn]
    · rw [show (insertCommas (natRepr ((round2 v).natAbs / 100)).data).reverse
          = groupRev (natRepr ((round2 v).natAbs / 100)).data.reverse from by
        simp [insertCommas]]
      exact revGroupedOk_groupRev _ (by simpa using natRepr_ne_nil _)
        (fun c hc => natRepr_digits (List.mem_reverse.mp hc))
    · intro hdot
      have hm := mem_groupRev _ _ (List.mem_reverse.mp
        (by simpa [insertCommas] using hdot))
      rcases hm with hm | hm
      · have := natRepr_digits (List.mem_reverse.mp hm)
        simp at this
      · simp at hm

/-- C3: for every valid record, rendering succeeds and the output starts
with the PDF magic bytes `%PDF-`, with more than a trivial number of
bytes (never empty or truncated). -/
theorem render_output_magic (r : BookingInvoiceRequest) (h : ValidRecord r) :
    (∃ rest, (generate_invoice_pdf r).data = ("%PDF-").data ++ rest)
    ∧ 8 < (generate_invoice_pdf r).length := by
  constructor
  · refine ⟨("1.4\n").data
      ++ (String.join ((generate_invoice_story r).map serializeFlowable)).data, ?_⟩
    show (docBuild (generate_invoice_story r)).data = _
    unfold docBuild
    simp [String.data_append]
  · show 8 < (docBuild (generate_invoice_story r)).length
    unfold docBuild
    rw [String.length_append]
    have h9 : ("%PDF-1.4\n" : String).length = 9 := rfl
    omega

/-- C3 witness: the boundary record (single item, zero tax, zero
discount) is valid and renders a non-trivial output. -/
theorem render_output_magic_witness :
    ValidRecord c3Boundary ∧ 8 < (generate_invoice_pdf c3Boundary).length :=
  ⟨by decide, (render_output_magic c3Boundary (by decide)).2⟩

/-- C4 counterexample: a record whose notes field is present (the empty
string, not None) renders no notes region, refuting "for every record
with notes present, the document contains a notes region". -/
theorem notes_present_but_region_omitted :
    c4Empty.notes = some "" ∧ ¬ hasNotesRegion (generate_invoice_story c4Empty) :=
  ⟨rfl, by decide⟩

/-- C4 amended: the notes region appears exactly when notes is present
AND non-empty; then it renders the italicised text `Notes: {notes}`;
a record with notes = None has no notes region. -/
theorem notes_region_iff_nonempty (r : BookingInvoiceRequest) :
    (hasNotesRegion (generate_invoice_story r) ↔ ∃ s, r.notes = some s ∧ s ≠ "")
    ∧ (∀ s, r.notes = some s → s ≠ "" →
        Flowable.par ("<i>Notes: " ++ s ++ "</i>") "notes" ∈ generate_invoice_story r)
    ∧ (r.notes = none → ¬ hasNotesRegion (generate_invoice_story r)) := by
  refine ⟨hasNotes_iff r, ?_, ?_⟩
  · intro s hs hne
    simp [generate_invoice_story, notesFlow, hs, hne]
  · intro hn
    rw [hasNotes_iff]
    simp [hn]

/-- C4 witness: a record with non-empty notes renders the notes
paragraph. -/
theorem notes_region_iff_nonempty_witness :
    Flowable.par ("<i>Notes: " ++ "hi" ++ "</i>") "notes"
      ∈ generate_invoice_story c4Filled :=
  (notes_region_iff_nonempty c4Filled).2.1 "hi" rfl (by decide)

/-- C5: the item table is the header row (index, description, quantity,
unit price, amount, with widths 8/47/12/15/18 percent) followed by one
data row per item in input order, each with a 1-based sequential index;
a one-element list yields a single data row with index "1". -/
theorem item_table_rows (r : BookingInvoiceRequest) (h : ValidRecord r) :
    itemsTable r = .table (itemsHeaderRow :: itemRows (symOf r) 1 r.items)
        ["8%", "47%", "12%", "15%", "18%"] (itemsTblStyle r.items.length)
    ∧ itemsTable r ∈ generate_invoice_story r
    ∧ itemsHeaderRow = [ .par "<b>#</b>" "bold", .par "<b>Description</b>" "bold",
        .par "<b>Qty</b>" "bold", .par "<b>Unit Price</b>" "bold",
        .par "<b>Amount</b>" "bold" ]
    ∧ (itemRows (symOf r) 1 r.items).length = r.items.length
    ∧ (∀ j : Nat, (itemRows (symOf r) 1 r.items)[j]?
        = r.items[j]?.map fun it => itemRow (1 + j) it (symOf r))
    ∧ (∀ (j : Nat) (it : BookingItem), r.items[j]? = some it →
        (itemRow (1 + j) it (symOf r))[0]? = some (.par (natRepr (1 + j)) "normal"))
    ∧ (∀ it : BookingItem, r.items = [it] →
        itemRows (symOf r) 1 r.items = [itemRow 1 it (symOf r)]
        ∧ (itemRow 1 it (symOf r))[0]? = some (.par "1" "normal")) := by
  refine ⟨rfl, by simp [generate_invoice_story], rfl, itemRows_length _ _ _,
    fun j => itemRows_getElem _ _ _ _, fun j it _ => rfl, ?_⟩
  intro it hit
  rw [hit]
  exact ⟨rfl, rfl⟩

/-- C5 witness: the one-item record is valid and yields exactly one data
row. -/
theorem item_table_rows_witness :
    ValidRecord c5Rec
    ∧ itemRows (symOf c5Rec) 1 c5Rec.items
        = [itemRow 1 ⟨"Tour", 1, 100⟩ (symOf c5Rec)] :=
  ⟨by decide, ((item_table_rows c5Rec (by decide)).2.2.2.2.2.2 ⟨"Tour", 1, 100⟩ rfl).1⟩

lemma mem_altRowCmds (n i : Nat) :
    ((⟨"BACKGROUND", (0, (i : Int)), (-1, (i : Int)), ["#f4f6fb"]⟩ : StyleCmd)
        ∈ altRowCmds n) ↔ 1 ≤ i ∧ i ≤ n ∧ i % 2 = 0 := by
  unfold altRowCmds
  rw [List.mem_filterMap]
  constructor
  · rintro ⟨a, ham, hsome⟩
    rw [List.mem_range'_1] at ham
    by_cases hp : a % 2 = 0
    · rw [if_pos hp] at hsome
      have heq : (⟨"BACKGROUND", (0, (a : Int)), (-1, (a : Int)), ["#f4f6fb"]⟩ : StyleCmd)
          = ⟨"BACKGROUND", (0, (i : Int)), (-1, (i : Int)), ["#f4f6fb"]⟩ :=
        Option.some.inj hsome
      have hcast : ((a : Int)) = (i : Int) := by
        have := congrArg (fun c => c.first.2) heq
        simpa using this
      have hai : a = i := by exact_mod_cast hcast
      subst hai
      exact ⟨ham.1, by omega, hp⟩
    · rw [if_neg hp] at hsome
      cases hsome
  · rintro ⟨h1, h2, h3⟩
    refine ⟨i, ?_, ?_⟩
    · rw [List.mem_range'_1]
      omega
    · rw [if_pos h3]

/-- C6: in the item table a light alternate-shade BACKGROUND command is
attached to exactly the rows at even 1-based data positions (table rows
2, 4, 6, ... up to the number of items); odd positions get none. -/
theorem alternate_rows_shaded (r : BookingInvoiceRequest) (h : ValidRecord r) :
    (∀ i : Nat,
      (⟨"BACKGROUND", (0, (i : Int)), (-1, (i : Int)), ["#f4f6fb"]⟩ : StyleCmd)
          ∈ itemsTblStyle r.items.length
        ↔ 1 ≤ i ∧ i ≤ r.items.length ∧ i % 2 = 0)
    ∧ itemsTable r ∈ generate_invoice_story r := by
  refine ⟨?_, by simp [generate_invoice_story]⟩
  intro i
  unfold itemsTblStyle
  rw [List.mem_append, mem_altRowCmds]
  constructor
  · rintro (hb | hvc)
    · simp [baseTblStyle] at hb
    · exact hvc
  · exact fun hx => Or.inr hx

/-- C6 witness: in a two-item record, data row 2 is shaded. -/
theorem alternate_rows_shaded_witness :
    ValidRecord c6Rec
    ∧ (⟨"BACKGROUND", (0, ((2 : Nat) : Int)), (-1, ((2 : Nat) : Int)),
        ["#f4f6fb"]⟩ : StyleCmd) ∈ itemsTblStyle c6Rec.items.length :=
  ⟨by decide, ((alternate_rows_shaded c6Rec (by decide)).1 2).mpr (by decide)⟩

/-- C7: the Discount line of the totals block renders the discount value
prefixed with the literal minus sign `−`, and with USD currency and zero
discount it renders `−$0.00`. -/
theorem discount_line_minus (r : BookingInvoiceRequest) (h : ValidRecord r) :
    (totalsRows r)[2]? = some [ .str "", .par "<b>Discount</b>" "bold",
        .par ("−" ++ _currency r.discount (symOf r)) "normal" ]
    ∧ totalsTable r ∈ generate_invoice_story r
    ∧ (r.currency = "USD" → r.discount = 0 →
        "−" ++ _currency r.discount (symOf r) = "−$0.00") := by
  refine ⟨rfl, by simp [generate_invoice_story], ?_⟩
  intro hc hd
  rw [hd]
  unfold _currency symOf
  rw [hc]
  rw [if_pos rfl]
  rw [pyFormatComma2_eq_of 0 0 (by norm_num)]
  decide

/-- C7 witness: the USD zero-discount record renders its discount line
value as `−$0.00`. -/
theorem discount_line_minus_witness :
    ValidRecord c7Rec
    ∧ "−" ++ _currency c7Rec.discount (symOf c7Rec) = "−$0.00" :=
  ⟨by decide, (discount_line_minus c7Rec (by decide)).2.2 rfl rfl⟩

/-- C8: rendering is deterministic and idempotent: identical records
produce the identical story and identical output bytes (the embedded
document writer carries no non-deterministic metadata). -/
theorem render_deterministic (r₁ r₂ : BookingInvoiceRequest) (h : r₁ = r₂) :
    generate_invoice_story r₁ = generate_invoice_story r₂
    ∧ generate_invoice_pdf r₁ = generate_invoice_pdf r₂ := by
  subst h
  exact ⟨rfl, rfl⟩

/-- C8 witness: two renders of the same concrete record coincide. -/
theorem render_deterministic_witness :
    generate_invoice_pdf c8Rec = generate_invoice_pdf c8Rec :=
  (render_deterministic c8Rec c8Rec rfl).2

/-- C9: a record whose notes field is the empty string renders no notes
region, exactly as a record with notes = None does: the guard is on
truthiness, not on being non-None. -/
theorem empty_notes_treated_as_none (r : BookingInvoiceRequest)
    (h : r.notes = some "") :
    ¬ hasNotesRegion (generate_invoice_story r)
    ∧ generate_invoice_story r = generate_invoice_story { r with notes := none } := by
  constructor
  · rw [hasNotes_iff]
    simp [h]
  · simp [generate_invoice_story, notesFlow, h, headerTable, infoTable, itemsTable,
      totalsTable, totalsRows, subtotal, tax_amount, total, symOf]

/-- C9 witness: the concrete empty-notes record has no notes region. -/
theorem empty_notes_treated_as_none_witness :
    ¬ hasNotesRegion (generate_invoice_story c9Rec) :=
  (empty_notes_treated_as_none c9Rec rfl).1

/-- C10: a record built with only the required fields defaults to
taxRate 0, discount 0, currency "USD" and notes None, so it renders with
total = subtotal, dollar-prefixed amounts and no notes region. -/
theorem minimal_request_defaults (a b c d : String) (bd dd : PyDate)
    (g : String) (items : List BookingItem) :
    (BookingInvoiceRequest.mkMinimal a b c d bd dd g items).tax_rate = 0
    ∧ (BookingInvoiceRequest.mkMinimal a b c d bd dd g items).discount = 0
    ∧ (BookingInvoiceRequest.mkMinimal a b c d bd dd g items).currency = "USD"
    ∧ (BookingInvoiceRequest.mkMinimal a b c d bd dd g items).notes = none
    ∧ total (BookingInvoiceRequest.mkMinimal a b c d bd dd g items)
        = subtotal (BookingInvoiceRequest.mkMinimal a b c d bd dd g items)
    ∧ symOf (BookingInvoiceRequest.mkMinimal a b c d bd dd g items) = "$"
    ∧ (∀ v : ℚ, _currency v (symOf (BookingInvoiceRequest.mkMinimal a b c d bd dd g items))
        = "$" ++ pyFormatComma2 v)
    ∧ ¬ hasNotesRegion
        (generate_invoice_story (BookingInvoiceRequest.mkMinimal a b c d bd dd g items)) := by
  refine ⟨rfl, rfl, rfl, rfl, ?_, rfl, fun v => rfl, ?_⟩
  · unfold total tax_amount
    simp [BookingInvoiceRequest.mkMinimal]
  · rw [hasNotes_iff]
    simp [BookingInvoiceRequest.mkMinimal]

end GuideBooker
